import Mathlib

/-!
Verification of the FTAM file-transfer protocol implementation
(src/Serveur.py and src/Client.py) against its specification.

The Python code is shallowly embedded: the per-connection session dict
becomes a `SessionState` structure, the `data/` directory becomes an
association list from filenames to byte contents (bytes are naturals
below 256), and every `cmd_*` handler of `Serveur.py` becomes a pure
Lean function from session state, parsed command parts and filesystem
to the response string, the new session state and the new filesystem.
File handles opened by `cmd_begin_upload` in mode `wb`/`ab` are
recorded as the name of the destination file; since both modes place
every write at the end of the file, a write through the handle is
modelled as appending to the file's byte list.  The possibility that
`f.write`/`f.flush` raises an `OSError` mid-transfer is modelled by an
explicit `diskFault` flag on `cmd_upload_data` (the `try`/`except`
block treats a decode error and a write error identically).
-/

namespace FTAM

/-- `BLOCK_SIZE = 512` from `Serveur.py` and `Client.py`. -/
def BLOCK_SIZE : Nat := 512

/-! ### Character helpers (Python `str.upper`, `str.split`, `str.strip`) -/

/-- Python whitespace as used by `str.split()` / `str.strip()` with no
argument, restricted to ASCII: space, tab, newline, carriage return,
vertical tab, form feed. -/
def pySpace (c : Char) : Bool :=
  c.toNat == 32 || c.toNat == 9 || c.toNat == 10 ||
  c.toNat == 13 || c.toNat == 11 || c.toNat == 12

/-- ASCII uppercasing of one character, as `str.upper()` acts on the
ASCII range (the protocol's verbs are ASCII). -/
def pyCharUpper (c : Char) : Char :=
  if 97 ≤ c.toNat ∧ c.toNat ≤ 122 then Char.ofNat (c.toNat - 32) else c

/-- `str.upper()` on a whole string (ASCII range). -/
def pyUpper (s : String) : String := String.mk (s.data.map pyCharUpper)

/-- Helper of `pySplitChars`: `acc` holds the reversed characters of the
token currently being scanned. -/
def pySplitAux : List Char → List Char → List (List Char)
  | [], acc => if acc = [] then [] else [acc.reverse]
  | c :: cs, acc =>
    if pySpace c then
      if acc = [] then pySplitAux cs [] else acc.reverse :: pySplitAux cs []
    else pySplitAux cs (c :: acc)

/-- `str.split()` with no argument: split on runs of whitespace,
discarding empty tokens. -/
def pySplitChars (l : List Char) : List (List Char) := pySplitAux l []

/-- `str.split()` lifted to `String`. -/
def pySplit (s : String) : List String := (pySplitChars s.data).map String.mk

/-- `str.strip()` (ASCII whitespace). -/
def stripChars (l : List Char) : List Char :=
  ((l.dropWhile pySpace).reverse.dropWhile pySpace).reverse

/-- `str.strip()` lifted to `String`. -/
def pyStrip (s : String) : String := String.mk (stripChars s.data)

/-- `s.startswith(pre)`. -/
def pyStartsWith (pre s : String) : Bool := pre.data.isPrefixOf s.data

/-! ### Integer parsing (Python `int(...)`) -/

/-- Value of a decimal digit character. -/
def digitVal (c : Char) : Option Nat :=
  if 48 ≤ c.toNat ∧ c.toNat ≤ 57 then some (c.toNat - 48) else none

/-- Accumulates the decimal value of a digit run; fails at the first
non-digit. -/
def digitsAux : List Char → Nat → Option Nat
  | [], acc => some acc
  | c :: rest, acc =>
    match digitVal c with
    | some d => digitsAux rest (acc * 10 + d)
    | none => none

/-- Value of a non-empty run of decimal digits. -/
def digitsVal : List Char → Option Nat
  | [] => none
  | l => digitsAux l 0

/-- Python `int(s)`: surrounding whitespace stripped, optional sign,
then decimal digits (digit-group underscores are not modelled; no
input in this development contains them). -/
def pyInt (s : String) : Option Int :=
  match stripChars s.data with
  | '-' :: rest => (digitsVal rest).map (fun n => -(n : Int))
  | '+' :: rest => (digitsVal rest).map (fun n => (n : Int))
  | l => (digitsVal l).map (fun n => (n : Int))

/-! ### Hex codec (`bytes.fromhex` and `bytes.hex`) -/

/-- Value of one hexadecimal digit (`0-9`, `a-f`, `A-F`), as accepted
by `bytes.fromhex`. -/
def hexDigitVal (c : Char) : Option Nat :=
  if 48 ≤ c.toNat ∧ c.toNat ≤ 57 then some (c.toNat - 48)
  else if 97 ≤ c.toNat ∧ c.toNat ≤ 102 then some (c.toNat - 87)
  else if 65 ≤ c.toNat ∧ c.toNat ≤ 70 then some (c.toNat - 55)
  else none

/-- `bytes.fromhex` scanner: spaces may separate byte pairs but may not
split a pair; an odd trailing digit or a non-hex character fails. -/
def fromhexAux : List Char → Option (List Nat)
  | [] => some []
  | c :: rest =>
    if c = ' ' then fromhexAux rest
    else
      match rest with
      | [] => none
      | c2 :: rest2 =>
        match hexDigitVal c, hexDigitVal c2 with
        | some h, some lo => (fromhexAux rest2).map (fun bs => (16 * h + lo) :: bs)
        | _, _ => none

/-- `bytes.fromhex(s)`. -/
def pyFromhex (s : String) : Option (List Nat) := fromhexAux s.data

/-- The exception detail recorded when `bytes.fromhex` raises
(`ValueError`); the position suffix of the real message is not
modelled, no claim depends on the exact text. -/
def fromhexErrMsg : String := "non-hexadecimal number found in fromhex() arg"

/-- Lowercase hex digit of a value below 16. -/
def hexDigitChar (n : Nat) : Char :=
  if n < 10 then Char.ofNat (48 + n) else Char.ofNat (87 + n)

/-- `bytes.hex()`: two lowercase digits per byte. -/
def bytesToHex (bs : List Nat) : String :=
  String.mk (bs.flatMap (fun b => [hexDigitChar (b / 16 % 16), hexDigitChar (b % 16)]))

/-! ### UTF-8 encode/decode for the text-mode file operations -/

/-- Bytes written by a Python text-mode `f.write(s)` (UTF-8). -/
def strBytes (s : String) : List Nat := s.toUTF8.toList.map UInt8.toNat

/-- Text-mode read of a byte content (UTF-8 decode; `none` models the
`UnicodeDecodeError` of an invalid sequence). -/
def decodeUtf8 (bs : List Nat) : Option String :=
  String.fromUTF8? ⟨⟨bs.map (fun b => UInt8.ofNat b)⟩⟩

/-! ### The server's `data/` directory -/

/-- The server's flat storage directory: filenames mapped to byte
contents, first match wins. -/
abbrev FS := List (String × List Nat)

/-- `os.path.exists` / content lookup. -/
def fsLookup : FS → String → Option (List Nat)
  | [], _ => none
  | (m, c) :: rest, n => if m = n then some c else fsLookup rest n

/-- Replace the content of `n` (or create it at the end). -/
def fsSet : FS → String → List Nat → FS
  | [], n, c => [(n, c)]
  | (m, c0) :: rest, n, c =>
    if m = n then (m, c) :: rest else (m, c0) :: fsSet rest n c

/-- `os.remove`. -/
def fsRemove (fs : FS) (n : String) : FS := fs.filter (fun p => p.1 ≠ n)

/-- Append bytes at the end of file `n` (the effect of a write through
a `wb`/`ab` handle). -/
def fsAppend (fs : FS) (n : String) (bs : List Nat) : FS :=
  fsSet fs n (((fsLookup fs n).getD []) ++ bs)

/-- `os.path.getsize`. -/
def fsSize (fs : FS) (n : String) : Nat := ((fsLookup fs n).getD []).length

/-! ### Session state (`session_state` dict of `handle_client`) -/

/-- The per-connection `session_state` dictionary created by
`handle_client`.  `transfer_file` holds the name of the file the open
`wb`/`ab` transfer handle writes to (`none` = no handle). -/
structure SessionState where
  open_file : Option String
  phase : String
  transfer_in_progress : Bool
  transfer_offset : Nat
  transfer_file : Option String
  error_flag : Bool
  error_message : String
  deriving Repr, DecidableEq

/-- The initial session state of a fresh connection. -/
def initialState : SessionState :=
  { open_file := none, phase := "ASSOCIATED", transfer_in_progress := false,
    transfer_offset := 0, transfer_file := none, error_flag := false,
    error_message := "" }

/-! ### Server command handlers (`Serveur.py`, `cmd_*`)

Each handler takes the session state, the `parts` list produced by
`command.split()` (the verb still in front, as in the Python code) and
the filesystem, and returns the response line, the new session state
and the new filesystem. -/

/-- `cmd_list`: every entry of the flat directory is a regular file. -/
def cmd_list (st : SessionState) (fs : FS) : String × SessionState × FS :=
  let files := fs.map Prod.fst
  if files.isEmpty then
    ("LIST_OK\n=== Liste des fichiers ===\nAucun fichier trouvé.\n===========================", st, fs)
  else
    let file_list := String.intercalate "\n" (files.map (fun f => "  - " ++ f))
    ("LIST_OK\n=== Liste des fichiers ===\n" ++ file_list ++ "\n===========================", st, fs)

/-- `cmd_open`. -/
def cmd_open (st : SessionState) (parts : List String) (fs : FS) :
    String × SessionState × FS :=
  if st.open_file.isSome then
    ("ERREUR: Un fichier est déjà ouvert", st, fs)
  else
    match parts with
    | _ :: filename :: _ =>
      if (fsLookup fs filename).isSome then
        ("OPEN_OK " ++ filename,
         { st with open_file := some filename, phase := "FILE_OPEN" }, fs)
      else
        ("ERREUR: Le fichier \x27" ++ filename ++ "\x27 n\x27existe pas", st, fs)
    | _ => ("ERREUR: OPEN nécessite un nom de fichier", st, fs)

/-- `cmd_create`: `open(filepath, 'w')` truncates or creates. -/
def cmd_create (st : SessionState) (parts : List String) (fs : FS) :
    String × SessionState × FS :=
  if st.open_file.isSome then
    ("ERREUR: Un fichier est déjà ouvert", st, fs)
  else
    match parts with
    | _ :: filename :: _ =>
      ("CREATE_OK " ++ filename,
       { st with open_file := some filename, phase := "FILE_OPEN" },
       fsSet fs filename [])
    | _ => ("ERREUR: CREATE nécessite un nom de fichier", st, fs)

/-- `cmd_rename`: `os.rename` (POSIX semantics, the new name is
overwritten when present). -/
def cmd_rename (st : SessionState) (parts : List String) (fs : FS) :
    String × SessionState × FS :=
  match parts with
  | _ :: old_name :: new_name :: _ =>
    match fsLookup fs old_name with
    | some c =>
      ("RENAME_OK " ++ old_name ++ " -> " ++ new_name, st,
       fsSet (fsRemove fs old_name) new_name c)
    | none => ("ERREUR: Le fichier \x27" ++ old_name ++ "\x27 n\x27existe pas", st, fs)
  | _ => ("ERREUR: RENAME nécessite un ancien et un nouveau nom", st, fs)

/-- `cmd_delete`. -/
def cmd_delete (st : SessionState) (parts : List String) (fs : FS) :
    String × SessionState × FS :=
  match parts with
  | _ :: filename :: _ =>
    if (fsLookup fs filename).isSome then
      ("DELETE_OK " ++ filename, st, fsRemove fs filename)
    else
      ("ERREUR: Le fichier \x27" ++ filename ++ "\x27 n\x27existe pas", st, fs)
  | _ => ("ERREUR: DELETE nécessite un nom de fichier", st, fs)

/-- `cmd_read`: text-mode read of the open file, stripped; a missing
file or an undecodable content raises, answered with `ERREUR:`. -/
def cmd_read (st : SessionState) (fs : FS) : String × SessionState × FS :=
  match st.open_file with
  | none => ("ERREUR: Aucun fichier ouvert. Utilise OPEN ou CREATE d\x27abord", st, fs)
  | some filename =>
    match fsLookup fs filename with
    | none => ("ERREUR: Lecture du fichier échouée: fichier absent", st, fs)
    | some bs =>
      match decodeUtf8 bs with
      | none => ("ERREUR: Lecture du fichier échouée: décodage", st, fs)
      | some content0 =>
        ("READ_OK\n=== Contenu du fichier: " ++ filename ++ " ===\n" ++
           pyStrip content0 ++ "\n===============================", st, fs)

/-- `cmd_write`: text-mode append of `" ".join(parts[1:]) + "\n"`. -/
def cmd_write (st : SessionState) (parts : List String) (fs : FS) :
    String × SessionState × FS :=
  match st.open_file with
  | none => ("ERREUR: Aucun fichier ouvert. Utilise OPEN ou CREATE d\x27abord", st, fs)
  | some filename =>
    match parts with
    | _ :: d :: ds =>
      let filedata := String.intercalate " " (d :: ds)
      ("WRITE_OK " ++ filename, st, fsAppend fs filename (strBytes (filedata ++ "\n")))
    | _ => ("ERREUR: WRITE nécessite des données à écrire", st, fs)

/-- `cmd_close`. -/
def cmd_close (st : SessionState) (fs : FS) : String × SessionState × FS :=
  match st.open_file with
  | none => ("ERREUR: Aucun fichier ouvert à fermer", st, fs)
  | some filename =>
    ("CLOSE_OK " ++ filename,
     { st with open_file := none, phase := "ASSOCIATED" }, fs)

/-- `cmd_begin_upload`: the destination is opened in mode `wb`
(truncate/create) when absent and `ab` (append) when present, the
transfer offset is initialised to the size found on disk, and the
response is `UPLOAD_RESUME` exactly when that offset is positive. -/
def cmd_begin_upload (st : SessionState) (parts : List String) (fs : FS) :
    String × SessionState × FS :=
  match parts with
  | _ :: filename :: _ =>
    match fsLookup fs filename with
    | some c =>
      let offset := c.length
      let st2 := { st with transfer_in_progress := true,
                           transfer_file := some filename,
                           transfer_offset := offset,
                           phase := "TRANSFER_IN_PROGRESS" }
      if offset > 0 then
        ("UPLOAD_RESUME " ++ filename ++ " offset=" ++ toString offset, st2, fs)
      else
        ("UPLOAD_READY " ++ filename ++ " offset=" ++ toString offset, st2, fs)
    | none =>
      let st2 := { st with transfer_in_progress := true,
                           transfer_file := some filename,
                           transfer_offset := 0,
                           phase := "TRANSFER_IN_PROGRESS" }
      ("UPLOAD_READY " ++ filename ++ " offset=0", st2, fsSet fs filename [])
  | _ => ("ERREUR: UPLOAD nécessite un nom de fichier", st, fs)

/-- The exception detail recorded when the disk write raises. -/
def diskErrMsg : String := "write error"

/-- The exception detail of `None.write` (`AttributeError`), raised
when the transfer flag is set but no handle is recorded. -/
def noHandleErrMsg : String :=
  "\x27NoneType\x27 object has no attribute \x27write\x27"

/-- `cmd_upload_data`.  `diskFault` models `f.write`/`f.flush` raising
an `OSError`; the `except` branch records the detail on the session,
keeps the handle and the offset, and answers `UPLOAD_ERROR`. -/
def cmd_upload_data (diskFault : Bool) (st : SessionState) (parts : List String)
    (fs : FS) : String × SessionState × FS :=
  if !st.transfer_in_progress then
    ("ERREUR: Aucun upload en cours", st, fs)
  else
    match parts with
    | _ :: d :: ds =>
      let data_hex := String.intercalate " " (d :: ds)
      match pyFromhex data_hex with
      | none =>
        ("UPLOAD_ERROR " ++ fromhexErrMsg,
         { st with error_flag := true, error_message := fromhexErrMsg }, fs)
      | some data_bytes =>
        match st.transfer_file with
        | none =>
          ("UPLOAD_ERROR " ++ noHandleErrMsg,
           { st with error_flag := true, error_message := noHandleErrMsg }, fs)
        | some fname =>
          if diskFault then
            ("UPLOAD_ERROR " ++ diskErrMsg,
             { st with error_flag := true, error_message := diskErrMsg }, fs)
          else
            let off2 := st.transfer_offset + data_bytes.length
            ("UPLOAD_DATA_OK offset=" ++ toString off2,
             { st with transfer_offset := off2 }, fsAppend fs fname data_bytes)
    | _ => ("ERREUR: UPLOAD_DATA nécessite des données à écrire", st, fs)

/-- `cmd_upload_end`. -/
def cmd_upload_end (st : SessionState) (fs : FS) : String × SessionState × FS :=
  if !st.transfer_in_progress then
    ("ERREUR: Aucun upload en cours", st, fs)
  else if st.error_flag then
    ("UPLOAD_INTERRUPTED", st, fs)
  else
    ("UPLOAD_END_OK",
     { st with transfer_file := none, transfer_in_progress := false,
               phase := "FILE_OPEN", error_flag := false, error_message := "" },
     fs)

/-- `cmd_resume_upload`. -/
def cmd_resume_upload (st : SessionState) (fs : FS) : String × SessionState × FS :=
  if !st.error_flag then
    ("ERREUR: Aucun upload à reprendre", st, fs)
  else
    match st.transfer_file with
    | none => ("ERREUR: Fichier de transfert non ouvert", st, fs)
    | some _ =>
      ("RESUME_UPLOAD_OK offset=" ++ toString st.transfer_offset,
       { st with transfer_in_progress := true, phase := "TRANSFER_IN_PROGRESS",
                 error_flag := false, error_message := "" }, fs)

/-- `gestionnaire_commandes`: split the line, uppercase the first
token, dispatch. -/
def gestionnaire_commandes (diskFault : Bool) (command : String)
    (st : SessionState) (fs : FS) : String × SessionState × FS :=
  match pySplit command with
  | [] => ("ERREUR: Commande vide", st, fs)
  | p0 :: rest =>
    let parts := p0 :: rest
    let cmd := pyUpper p0
    if cmd = "LIST" then cmd_list st fs
    else if cmd = "OPEN" then cmd_open st parts fs
    else if cmd = "CREATE" then cmd_create st parts fs
    else if cmd = "RENAME" then cmd_rename st parts fs
    else if cmd = "DELETE" then cmd_delete st parts fs
    else if cmd = "READ" then cmd_read st fs
    else if cmd = "WRITE" then cmd_write st parts fs
    else if cmd = "CLOSE" then cmd_close st fs
    else if cmd = "UPLOAD" then cmd_begin_upload st parts fs
    else if cmd = "UPLOAD_DATA" then cmd_upload_data diskFault st parts fs
    else if cmd = "UPLOAD_END" then cmd_upload_end st fs
    else if cmd = "RESUME_UPLOAD" then cmd_resume_upload st fs
    else ("ERREUR: Commande non reconnue", st, fs)

/-! ### The streaming `DOWNLOAD` path -/

/-- Fuelled helper of `chunks512`; the fuel only forces structural
recursion and never runs out when it starts at the list's length. -/
def chunks512F : Nat → List Nat → List (List Nat)
  | _, [] => []
  | 0, _ :: _ => []
  | fuel + 1, b :: rest => (b :: rest).take 512 :: chunks512F fuel (rest.drop 511)

/-- The `f.read(BLOCK_SIZE)` loop of `cmd_download`: the remaining
bytes cut into blocks of 512. -/
def chunks512 (l : List Nat) : List (List Nat) := chunks512F l.length l

/-- `cmd_download`: parses the raw command line itself, answers one
`ERREUR:` line on a missing argument, a bad offset or an absent file,
and otherwise streams the header line, one `CHUNK` line per block read
from the requested offset, and the final `DOWNLOAD_END` line.  The
result is the list of lines sent (each newline-terminated on the
wire).  A negative offset makes `f.seek` raise, caught as a download
failure. -/
def cmd_download (command : String) (fs : FS) : List String :=
  match pySplit command with
  | _ :: filename :: rest =>
    let offres : Option Int :=
      match rest with
      | [] => some 0
      | o :: _ => pyInt o
    match offres with
    | none => ["ERREUR: Offset invalide"]
    | some offset =>
      match fsLookup fs filename with
      | none => ["ERREUR: Le fichier \x27" ++ filename ++ "\x27 n\x27existe pas"]
      | some content =>
        if offset < 0 then
          ["ERREUR: Téléchargement du fichier échoué: seek hors du fichier"]
        else
          ("DOWNLOAD_READY " ++ filename ++ " offset=" ++ toString offset) ::
            (chunks512 (content.drop offset.toNat)).map
              (fun c => "CHUNK " ++ bytesToHex c) ++
            ["DOWNLOAD_END"]
  | _ => ["ERREUR: DOWNLOAD nécessite un nom de fichier"]

/-- The per-line dispatch of `handle_client` on an already stripped
command: lines whose uppercasing starts with `DOWNLOAD` go to the
streaming path (session state untouched), everything else goes through
`gestionnaire_commandes` and answers exactly one line. -/
def processCommand (diskFault : Bool) (command : String) (st : SessionState)
    (fs : FS) : List String × SessionState × FS :=
  if pyStartsWith "DOWNLOAD" (pyUpper command) then
    (cmd_download command fs, st, fs)
  else
    let (resp, st2, fs2) := gestionnaire_commandes diskFault command st fs
    ([resp], st2, fs2)

/-! ### Client upload driver (`Client.py`, `upload_file`)

The client is modelled against an environment trace: one entry per
`send_command` exchange, `some r` meaning the response line `r` was
received and `none` meaning the exchange raised (connection failure).
An exhausted trace also counts as a failure.  The local file is a byte
list; `f.seek`/`f.read(BLOCK_SIZE)` become an explicit cursor into it. -/

/-- One environment trace: the responses the network delivers, in
order; `none` = the exchange raises. -/
abbrev Env := List (Option String)

/-- Pop the next response of the trace (an empty trace raises). -/
def envNext : Env → Option String × Env
  | [] => (none, [])
  | e :: es => (e, es)

/-- `response.split("offset=")[1]`: the text after the first
`offset=`; `none` models the `IndexError` when the marker is absent. -/
def afterOffsetEq (r : String) : Option String :=
  match r.splitOn "offset=" with
  | _ :: second :: _ => some second
  | _ => none

/-- `int(response.split("offset=")[1])` of `upload_file`. -/
def offsetParse (r : String) : Option Int := (afterOffsetEq r).bind pyInt

/-- `int(data_response.split("offset=")[1].split()[0])`: the offset
hint extracted from an `UPLOAD_ERROR` response. -/
def hintParse (r : String) : Option Int :=
  (afterOffsetEq r).bind (fun t =>
    match pySplit t with
    | w :: _ => pyInt w
    | [] => none)

/-- How one attempt of `upload_file` ended: clean `UPLOAD_END` path,
abandoned after a refused `UPLOAD` (the function returns), or an
exception that the outer retry loop catches. -/
inductive AttemptRes
  | success
  | aborted
  | excRetry
  deriving Repr, DecidableEq

/-- What one iteration of the retry loop did: the commands it sent in
order, how it ended, and the offset the server reported for it (when
the `UPLOAD` initiation was accepted and parsed). -/
structure AttemptLog where
  cmds : List String
  res : AttemptRes
  serverOff : Option Nat
  deriving Repr, DecidableEq

/-- The chunk-sending loop of `upload_file`: one `UPLOAD_DATA` per
block read at the local cursor (the blocks are precomputed from the
cursor position the attempt seeked to), then `UPLOAD_END` on an empty
read.  Returns how the attempt ended, the client's `offset` variable,
the rest of the trace and the commands sent. -/
def sendChunks (chunks : List (List Nat)) (offset : Int) (env : Env) :
    AttemptRes × Int × Env × List String :=
  match chunks with
  | [] =>
    match envNext env with
    | (none, env2) => (.excRetry, offset, env2, ["UPLOAD_END"])
    | (some _, env2) => (.success, offset, env2, ["UPLOAD_END"])
  | c :: rest =>
    let cmdStr := "UPLOAD_DATA " ++ bytesToHex c
    match envNext env with
    | (none, env2) => (.excRetry, offset, env2, [cmdStr])
    | (some r, env2) =>
      if pyStartsWith "UPLOAD_ERROR" r then
        let offset2 :=
          if (afterOffsetEq r).isSome then
            match hintParse r with
            | some n => n
            | none => offset
          else offset
        (.excRetry, offset2, env2, [cmdStr])
      else if pyStartsWith "UPLOAD_DATA_OK" r then
        match offsetParse r with
        | some n =>
          let r2 := sendChunks rest n env2
          (r2.1, r2.2.1, r2.2.2.1, cmdStr :: r2.2.2.2)
        | none => (.excRetry, offset, env2, [cmdStr])
      else
        let r2 := sendChunks rest offset env2
        (r2.1, r2.2.1, r2.2.2.1, cmdStr :: r2.2.2.2)

/-- One iteration of the `while attempt < max_attempts` loop of
`upload_file`: seek to the remembered offset (a negative one raises),
send `UPLOAD`, on `UPLOAD_READY`/`UPLOAD_RESUME` adopt the server's
offset, re-seek there and stream the chunks; on any other response
give up (`return`). -/
def uploadAttempt (name : String) (content : List Nat) (offset0 : Int)
    (env : Env) : AttemptLog × Int × Env :=
  if offset0 < 0 then
    ({ cmds := [], res := .excRetry, serverOff := none }, offset0, env)
  else
    let uploadCmd := "UPLOAD " ++ name
    match envNext env with
    | (none, env2) =>
      ({ cmds := [uploadCmd], res := .excRetry, serverOff := none }, offset0, env2)
    | (some r, env2) =>
      if pyStartsWith "UPLOAD_READY" r || pyStartsWith "UPLOAD_RESUME" r then
        match offsetParse r with
        | none =>
          ({ cmds := [uploadCmd], res := .excRetry, serverOff := none }, offset0, env2)
        | some n =>
          if n < 0 then
            ({ cmds := [uploadCmd], res := .excRetry, serverOff := none }, n, env2)
          else
            let r2 := sendChunks (chunks512 (content.drop n.toNat)) n env2
            ({ cmds := uploadCmd :: r2.2.2.2, res := r2.1,
               serverOff := some n.toNat }, r2.2.1, r2.2.2.1)
      else
        ({ cmds := [uploadCmd], res := .aborted, serverOff := none }, offset0, env2)

/-- How `upload_file` returned to its caller. -/
inductive UploadOutcome
  | success
  | aborted
  | exhausted
  deriving Repr, DecidableEq

/-- The retry loop of `upload_file`, fuelled by the remaining attempt
budget; only an attempt that raised is retried. -/
def uploadLoop (name : String) (content : List Nat) :
    Nat → Int → Env → List AttemptLog × UploadOutcome
  | 0, _, _ => ([], .exhausted)
  | fuel + 1, offset, env =>
    let a := uploadAttempt name content offset env
    match a.1.res with
    | .excRetry =>
      let r := uploadLoop name content fuel a.2.1 a.2.2
      (a.1 :: r.1, r.2)
    | .success => ([a.1], .success)
    | .aborted => ([a.1], .aborted)

/-- `upload_file(localPath, remoteName)`: at most 5 attempts starting
from a zero client offset.  Returns the log of each attempt made and
the outcome reported to the caller. -/
def upload_file (name : String) (content : List Nat) (env : Env) :
    List AttemptLog × UploadOutcome :=
  uploadLoop name content 5 0 env

/-! ### Filesystem lemmas -/

theorem fsLookup_fsSet_self (fs : FS) (n : String) (c : List Nat) :
    fsLookup (fsSet fs n c) n = some c := by
  induction fs with
  | nil => simp [fsSet, fsLookup]
  | cons p rest ih =>
    obtain ⟨m, c0⟩ := p
    by_cases h : m = n
    · simp [fsSet, fsLookup, h]
    · simp [fsSet, fsLookup, h, ih]

theorem fsLookup_fsAppend_self (fs : FS) (n : String) (bs : List Nat) :
    fsLookup (fsAppend fs n bs) n = some ((fsLookup fs n).getD [] ++ bs) :=
  fsLookup_fsSet_self fs n _

theorem fsSize_fsAppend_self (fs : FS) (n : String) (bs : List Nat) :
    fsSize (fsAppend fs n bs) n = fsSize fs n + bs.length := by
  simp [fsSize, fsLookup_fsAppend_self]

/-! ### `cmd_upload_data` step lemmas -/

/-- A successful `UPLOAD_DATA` on an active transfer decodes the chunk,
appends it at the end of the destination file and advances the offset
by the number of bytes written. -/
theorem upload_data_ok_step (st : SessionState) (fs : FS) (f h : String)
    (bs : List Nat) (hact : st.transfer_in_progress = true)
    (hf : st.transfer_file = some f) (hdec : pyFromhex h = some bs) :
    cmd_upload_data false st ["UPLOAD_DATA", h] fs =
      ("UPLOAD_DATA_OK offset=" ++ toString (st.transfer_offset + bs.length),
       { st with transfer_offset := st.transfer_offset + bs.length },
       fsAppend fs f bs) := by
  have hsingle : String.intercalate " " [h] = h := rfl
  simp only [cmd_upload_data, hact, Bool.not_true, Bool.false_eq_true,
    if_false, hsingle, hdec, hf, if_neg]

/-- `C1`: the claim states that each accepted `UPLOAD_DATA` write is
seeked to the transfer's current offset before writing, so that a
duplicated chunk never appends bytes twice.  The code never seeks: the
handle is opened in `wb`/`ab` mode and every write lands at the end of
the file.  Concretely, starting an upload of a fresh file `f` and
delivering the chunk `aa` twice leaves `f` holding two bytes, not the
one byte a single delivery leaves, refuting the claim. -/
theorem C1_counterexample :
    pyStartsWith "UPLOAD_DATA_OK"
      (cmd_upload_data false
        (cmd_begin_upload initialState ["UPLOAD", "f"] []).2.1
        ["UPLOAD_DATA", "aa"]
        (cmd_begin_upload initialState ["UPLOAD", "f"] []).2.2).1 = true ∧
    pyStartsWith "UPLOAD_DATA_OK"
      (cmd_upload_data false
        (cmd_upload_data false
          (cmd_begin_upload initialState ["UPLOAD", "f"] []).2.1
          ["UPLOAD_DATA", "aa"]
          (cmd_begin_upload initialState ["UPLOAD", "f"] []).2.2).2.1
        ["UPLOAD_DATA", "aa"]
        (cmd_upload_data false
          (cmd_begin_upload initialState ["UPLOAD", "f"] []).2.1
          ["UPLOAD_DATA", "aa"]
          (cmd_begin_upload initialState ["UPLOAD", "f"] []).2.2).2.2).1 = true ∧
    fsLookup
      (cmd_upload_data false
        (cmd_begin_upload initialState ["UPLOAD", "f"] []).2.1
        ["UPLOAD_DATA", "aa"]
        (cmd_begin_upload initialState ["UPLOAD", "f"] []).2.2).2.2 "f" =
      some [170] ∧
    fsLookup
      (cmd_upload_data false
        (cmd_upload_data false
          (cmd_begin_upload initialState ["UPLOAD", "f"] []).2.1
          ["UPLOAD_DATA", "aa"]
          (cmd_begin_upload initialState ["UPLOAD", "f"] []).2.2).2.1
        ["UPLOAD_DATA", "aa"]
        (cmd_upload_data false
          (cmd_begin_upload initialState ["UPLOAD", "f"] []).2.1
          ["UPLOAD_DATA", "aa"]
          (cmd_begin_upload initialState ["UPLOAD", "f"] []).2.2).2.2).2.2 "f" =
      some [170, 170] := by
  decide

/-- `C1` amended: every accepted `UPLOAD_DATA` write is appended at the
end of the destination file (the handle is opened in append mode and
never seeked), so delivering the same chunk a second time appends its
bytes again: the content after a duplicate delivery equals the content
after a single delivery followed by the chunk's bytes once more.
Duplicate suppression relies on the client resuming from the
server-reported offset, not on per-write seeks. -/
theorem C1_amended_append_semantics (st : SessionState) (fs : FS) (f h : String)
    (bs : List Nat) (hact : st.transfer_in_progress = true)
    (hf : st.transfer_file = some f) (hdec : pyFromhex h = some bs) :
    fsLookup (cmd_upload_data false st ["UPLOAD_DATA", h] fs).2.2 f =
      some ((fsLookup fs f).getD [] ++ bs) ∧
    fsLookup
      (cmd_upload_data false
        (cmd_upload_data false st ["UPLOAD_DATA", h] fs).2.1
        ["UPLOAD_DATA", h]
        (cmd_upload_data false st ["UPLOAD_DATA", h] fs).2.2).2.2 f =
      some ((fsLookup fs f).getD [] ++ bs ++ bs) := by
  have h1 := upload_data_ok_step st fs f h bs hact hf hdec
  rw [h1]
  constructor
  · exact fsLookup_fsAppend_self fs f bs
  · have h2 := upload_data_ok_step
      { st with transfer_offset := st.transfer_offset + bs.length }
      (fsAppend fs f bs) f h bs (by simpa using hact) (by simpa using hf) hdec
    simp only [h2]
    rw [fsLookup_fsAppend_self, fsLookup_fsAppend_self]
    simp

/-- A session state in mid-transfer on file `f`, used by concrete
instances below. -/
def transferState : SessionState :=
  { initialState with
    transfer_in_progress := true,
    transfer_file := some "f",
    phase := "TRANSFER_IN_PROGRESS" }

/-- Closed instance of `C1_amended_append_semantics` at the
counterexample's input. -/
theorem C1_amended_witness :
    fsLookup (cmd_upload_data false transferState
        ["UPLOAD_DATA", "aa"] [("f", [])]).2.2 "f" = some [170] ∧
    fsLookup
      (cmd_upload_data false
        (cmd_upload_data false transferState
          ["UPLOAD_DATA", "aa"] [("f", [])]).2.1
        ["UPLOAD_DATA", "aa"]
        (cmd_upload_data false transferState
          ["UPLOAD_DATA", "aa"] [("f", [])]).2.2).2.2 "f" = some [170, 170] := by
  have := C1_amended_append_semantics transferState
    [("f", [])] "f" "aa" [170] rfl (by decide) (by decide)
  simpa using this

/-- `C2`: the claim states that `UPLOAD name` on an existing file
always answers `UPLOAD_RESUME name offset=N` with `N` the existing
size.  The code chooses the response by `offset > 0`, so an existing
but empty file (size 0) is answered with `UPLOAD_READY f offset=0`,
not `UPLOAD_RESUME f offset=0`, refuting the claim. -/
theorem C2_counterexample :
    (fsLookup [("f", ([] : List Nat))] "f").isSome = true ∧
    (cmd_begin_upload initialState ["UPLOAD", "f"] [("f", [])]).1 =
      "UPLOAD_READY f offset=0" ∧
    (cmd_begin_upload initialState ["UPLOAD", "f"] [("f", [])]).1 ≠
      "UPLOAD_RESUME f offset=0" := by
  decide

/-- `C2` amended: for every command `UPLOAD name` with at least one
argument, the server opens the destination for append at its current
size (creating it empty if absent), sets the transfer offset to that
size, sets the phase to `TRANSFER_IN_PROGRESS`, and replies
`UPLOAD_RESUME name offset=N` when the existing size `N` is positive
and `UPLOAD_READY name offset=0` when the file is new or exists with
size 0. -/
theorem C2_amended_begin_upload (st : SessionState) (fs : FS) (name : String)
    (rest : List String) :
    (cmd_begin_upload st ("UPLOAD" :: name :: rest) fs).2.1.phase =
      "TRANSFER_IN_PROGRESS" ∧
    (cmd_begin_upload st ("UPLOAD" :: name :: rest) fs).2.1.transfer_in_progress =
      true ∧
    (cmd_begin_upload st ("UPLOAD" :: name :: rest) fs).2.1.transfer_file =
      some name ∧
    (fsLookup fs name = none →
      (cmd_begin_upload st ("UPLOAD" :: name :: rest) fs).2.2 =
        fsSet fs name [] ∧
      (cmd_begin_upload st ("UPLOAD" :: name :: rest) fs).2.1.transfer_offset = 0 ∧
      (cmd_begin_upload st ("UPLOAD" :: name :: rest) fs).1 =
        "UPLOAD_READY " ++ name ++ " offset=0") ∧
    (∀ c, fsLookup fs name = some c →
      (cmd_begin_upload st ("UPLOAD" :: name :: rest) fs).2.2 = fs ∧
      (cmd_begin_upload st ("UPLOAD" :: name :: rest) fs).2.1.transfer_offset =
        c.length ∧
      (cmd_begin_upload st ("UPLOAD" :: name :: rest) fs).1 =
        (if 0 < c.length then
          "UPLOAD_RESUME " ++ name ++ " offset=" ++ toString c.length
         else
          "UPLOAD_READY " ++ name ++ " offset=" ++ toString c.length)) := by
  match hl : fsLookup fs name with
  | none =>
    simp [cmd_begin_upload, hl]
  | some c =>
    by_cases hpos : c.length > 0
    · simp [cmd_begin_upload, hl, hpos]
    · have hz : c.length = 0 := by omega
      simp [cmd_begin_upload, hl, hpos, hz]

/-- `C3`: on an active transfer, an `UPLOAD_DATA` whose hex decoding
fails or whose disk write raises records the detail on the session
(`error_flag` set, `error_message` the detail), leaves the transfer
handle open and the transfer offset (and the `transfer_in_progress`
flag, the phase and the file store) unchanged, and answers
`UPLOAD_ERROR <detail>`. -/
theorem C3_upload_data_failure (d : Bool) (st : SessionState) (fs : FS)
    (a : String) (ds : List String)
    (hact : st.transfer_in_progress = true)
    (hfail : pyFromhex (String.intercalate " " (a :: ds)) = none ∨ d = true) :
    (cmd_upload_data d st ("UPLOAD_DATA" :: a :: ds) fs).2.1.error_flag = true ∧
    (cmd_upload_data d st ("UPLOAD_DATA" :: a :: ds) fs).2.1.transfer_file =
      st.transfer_file ∧
    (cmd_upload_data d st ("UPLOAD_DATA" :: a :: ds) fs).2.1.transfer_offset =
      st.transfer_offset ∧
    (cmd_upload_data d st ("UPLOAD_DATA" :: a :: ds) fs).2.1.transfer_in_progress =
      true ∧
    (cmd_upload_data d st ("UPLOAD_DATA" :: a :: ds) fs).2.1.phase = st.phase ∧
    (cmd_upload_data d st ("UPLOAD_DATA" :: a :: ds) fs).1 =
      "UPLOAD_ERROR " ++
        (cmd_upload_data d st ("UPLOAD_DATA" :: a :: ds) fs).2.1.error_message ∧
    (cmd_upload_data d st ("UPLOAD_DATA" :: a :: ds) fs).2.2 = fs := by
  match hdec : pyFromhex (String.intercalate " " (a :: ds)) with
  | none =>
    simp [cmd_upload_data, hact, hdec]
  | some bs =>
    have hd : d = true := by
      rcases hfail with h | h
      · rw [hdec] at h; exact absurd h (by simp)
      · exact h
    subst hd
    match hf : st.transfer_file with
    | none => simp [cmd_upload_data, hact, hdec, hf]
    | some fname => simp [cmd_upload_data, hact, hdec, hf]

/-- Closed instance of `C3_upload_data_failure`: a transfer in
progress, the undecodable chunk `zz`. -/
theorem C3_witness :
    (cmd_upload_data false transferState ["UPLOAD_DATA", "zz"]
      [("f", [])]).2.1.error_flag = true ∧
    (cmd_upload_data false transferState ["UPLOAD_DATA", "zz"]
      [("f", [])]).2.1.transfer_file = transferState.transfer_file ∧
    (cmd_upload_data false transferState ["UPLOAD_DATA", "zz"]
      [("f", [])]).2.1.transfer_offset = transferState.transfer_offset ∧
    (cmd_upload_data false transferState ["UPLOAD_DATA", "zz"]
      [("f", [])]).2.1.transfer_in_progress = true ∧
    (cmd_upload_data false transferState ["UPLOAD_DATA", "zz"]
      [("f", [])]).2.1.phase = transferState.phase ∧
    (cmd_upload_data false transferState ["UPLOAD_DATA", "zz"]
      [("f", [])]).1 =
      "UPLOAD_ERROR " ++
        (cmd_upload_data false transferState ["UPLOAD_DATA", "zz"]
          [("f", [])]).2.1.error_message ∧
    (cmd_upload_data false transferState ["UPLOAD_DATA", "zz"]
      [("f", [])]).2.2 = [("f", [])] :=
  C3_upload_data_failure false transferState [("f", [])] "zz" []
    (by decide) (Or.inl (by decide))

/-- `C4`: `UPLOAD_END` on an active transfer answers
`UPLOAD_INTERRUPTED` and changes nothing when `error_flag` is set;
otherwise it closes the handle, clears the transfer state, moves the
phase to `FILE_OPEN` and answers `UPLOAD_END_OK`; with no transfer
active it answers an `ERREUR:` line and changes nothing. -/
theorem C4_upload_end (st : SessionState) (fs : FS) :
    (st.transfer_in_progress = true → st.error_flag = true →
      cmd_upload_end st fs = ("UPLOAD_INTERRUPTED", st, fs)) ∧
    (st.transfer_in_progress = true → st.error_flag = false →
      cmd_upload_end st fs =
        ("UPLOAD_END_OK",
         { st with
           transfer_file := none,
           transfer_in_progress := false,
           phase := "FILE_OPEN",
           error_flag := false,
           error_message := "" }, fs)) ∧
    (st.transfer_in_progress = false →
      pyStartsWith "ERREUR:" (cmd_upload_end st fs).1 = true ∧
      (cmd_upload_end st fs).2.1 = st ∧ (cmd_upload_end st fs).2.2 = fs) := by
  refine ⟨fun hact herr => ?_, fun hact herr => ?_, fun hno => ?_⟩
  · simp [cmd_upload_end, hact, herr]
  · simp [cmd_upload_end, hact, herr]
  · have heq : cmd_upload_end st fs = ("ERREUR: Aucun upload en cours", st, fs) := by
      simp [cmd_upload_end, hno]
    rw [heq]
    exact ⟨(by decide :
      pyStartsWith "ERREUR:" "ERREUR: Aucun upload en cours" = true), rfl, rfl⟩

/-- `C9`: with a file open, `WRITE data...` appends exactly the joined
data followed by one newline to the open file (the previous content is
kept as a prefix) and answers `WRITE_OK name`; the session state is
unchanged. -/
theorem C9_write (st : SessionState) (fs : FS) (name d : String)
    (ds : List String) (hopen : st.open_file = some name) :
    cmd_write st ("WRITE" :: d :: ds) fs =
      ("WRITE_OK " ++ name, st,
       fsSet fs name ((fsLookup fs name).getD [] ++
         strBytes (String.intercalate " " (d :: ds) ++ "\n"))) ∧
    fsLookup (cmd_write st ("WRITE" :: d :: ds) fs).2.2 name =
      some ((fsLookup fs name).getD [] ++
        strBytes (String.intercalate " " (d :: ds) ++ "\n")) := by
  have h1 : cmd_write st ("WRITE" :: d :: ds) fs =
      ("WRITE_OK " ++ name, st,
       fsAppend fs name (strBytes (String.intercalate " " (d :: ds) ++ "\n"))) := by
    simp [cmd_write, hopen]
  refine ⟨h1, ?_⟩
  rw [h1]
  exact fsLookup_fsAppend_self fs name _

/-- Closed instance of `C9_write`: writing `Hello, world!` to the open
empty file `f`. -/
theorem C9_witness :
    cmd_write { initialState with open_file := some "f", phase := "FILE_OPEN" }
        ["WRITE", "Hello,", "world!"] [("f", [])] =
      ("WRITE_OK f",
       { initialState with open_file := some "f", phase := "FILE_OPEN" },
       fsSet [("f", [])] "f"
         ((fsLookup [("f", [])] "f").getD [] ++
           strBytes (String.intercalate " " ["Hello,", "world!"] ++ "\n"))) ∧
    fsLookup
      (cmd_write { initialState with open_file := some "f", phase := "FILE_OPEN" }
        ["WRITE", "Hello,", "world!"] [("f", [])]).2.2 "f" =
      some ((fsLookup [("f", [])] "f").getD [] ++
        strBytes (String.intercalate " " ["Hello,", "world!"] ++ "\n")) :=
  C9_write { initialState with open_file := some "f", phase := "FILE_OPEN" }
    [("f", [])] "f" "Hello," ["world!"] rfl

/-! ### Offset preservation of the non-transfer handlers -/

theorem cmd_list_offset (st : SessionState) (fs : FS) :
    (cmd_list st fs).2.1.transfer_offset = st.transfer_offset := by
  simp only [cmd_list]; split <;> rfl

theorem cmd_open_offset (st : SessionState) (parts : List String) (fs : FS) :
    (cmd_open st parts fs).2.1.transfer_offset = st.transfer_offset := by
  unfold cmd_open; (repeat' split) <;> rfl

theorem cmd_create_offset (st : SessionState) (parts : List String) (fs : FS) :
    (cmd_create st parts fs).2.1.transfer_offset = st.transfer_offset := by
  unfold cmd_create; (repeat' split) <;> rfl

theorem cmd_rename_offset (st : SessionState) (parts : List String) (fs : FS) :
    (cmd_rename st parts fs).2.1.transfer_offset = st.transfer_offset := by
  unfold cmd_rename; (repeat' split) <;> rfl

theorem cmd_delete_offset (st : SessionState) (parts : List String) (fs : FS) :
    (cmd_delete st parts fs).2.1.transfer_offset = st.transfer_offset := by
  unfold cmd_delete; (repeat' split) <;> rfl

theorem cmd_read_offset (st : SessionState) (fs : FS) :
    (cmd_read st fs).2.1.transfer_offset = st.transfer_offset := by
  unfold cmd_read; (repeat' split) <;> rfl

theorem cmd_write_offset (st : SessionState) (parts : List String) (fs : FS) :
    (cmd_write st parts fs).2.1.transfer_offset = st.transfer_offset := by
  unfold cmd_write; (repeat' split) <;> rfl

theorem cmd_close_offset (st : SessionState) (fs : FS) :
    (cmd_close st fs).2.1.transfer_offset = st.transfer_offset := by
  unfold cmd_close; (repeat' split) <;> rfl

theorem cmd_upload_end_offset (st : SessionState) (fs : FS) :
    (cmd_upload_end st fs).2.1.transfer_offset = st.transfer_offset := by
  unfold cmd_upload_end; (repeat' split) <;> rfl

theorem cmd_resume_upload_offset (st : SessionState) (fs : FS) :
    (cmd_resume_upload st fs).2.1.transfer_offset = st.transfer_offset := by
  unfold cmd_resume_upload; (repeat' split) <;> rfl

theorem cmd_upload_data_offset_mono (d : Bool) (st : SessionState)
    (parts : List String) (fs : FS) :
    st.transfer_offset ≤ (cmd_upload_data d st parts fs).2.1.transfer_offset := by
  by_cases ht : st.transfer_in_progress = true
  case neg => simp [cmd_upload_data, Bool.eq_false_iff.mpr ht]
  case pos =>
    match parts with
    | [] => simp [cmd_upload_data, ht]
    | [p] => simp [cmd_upload_data, ht]
    | p :: a :: ds =>
      match hpf : pyFromhex (String.intercalate " " (a :: ds)) with
      | none => simp [cmd_upload_data, ht, hpf]
      | some bs =>
        match hf : st.transfer_file with
        | none => simp [cmd_upload_data, ht, hpf, hf]
        | some fname =>
          by_cases hd : d = true
          · simp [cmd_upload_data, ht, hpf, hf, hd]
          · simp [cmd_upload_data, ht, hpf, hf, hd]

set_option maxHeartbeats 1000000 in
/-- Every dispatched command other than `UPLOAD` (which re-initialises
the transfer state) leaves the transfer offset equal or larger. -/
theorem gestionnaire_offset_mono (d : Bool) (command : String)
    (st : SessionState) (fs : FS)
    (hnup : ∀ p0 rest, pySplit command = p0 :: rest → pyUpper p0 ≠ "UPLOAD") :
    st.transfer_offset ≤
      (gestionnaire_commandes d command st fs).2.1.transfer_offset := by
  match hs : pySplit command with
  | [] => simp [gestionnaire_commandes, hs]
  | p0 :: rest =>
    have hup := hnup p0 rest hs
    simp only [gestionnaire_commandes, hs]
    split_ifs with h1 h2 h3 h4 h5 h6 h7 h8 h9 h10 h11
    · exact (cmd_list_offset st fs).ge
    · exact (cmd_open_offset st (p0 :: rest) fs).ge
    · exact (cmd_create_offset st (p0 :: rest) fs).ge
    · exact (cmd_rename_offset st (p0 :: rest) fs).ge
    · exact (cmd_delete_offset st (p0 :: rest) fs).ge
    · exact (cmd_read_offset st fs).ge
    · exact (cmd_write_offset st (p0 :: rest) fs).ge
    · exact (cmd_close_offset st fs).ge
    · exact cmd_upload_data_offset_mono d st (p0 :: rest) fs
    · exact (cmd_upload_end_offset st fs).ge
    · exact (cmd_resume_upload_offset st fs).ge
    · exact le_refl _

/-! ### Sequences of `UPLOAD_DATA` commands -/

/-- Folds a list of `UPLOAD_DATA hex` commands (one hex token per
command, as the client sends them) through `cmd_upload_data` with a
healthy disk. -/
def runUploadData : SessionState → FS → List String → SessionState × FS
  | st, fs, [] => (st, fs)
  | st, fs, h :: t =>
    runUploadData (cmd_upload_data false st ["UPLOAD_DATA", h] fs).2.1
      (cmd_upload_data false st ["UPLOAD_DATA", h] fs).2.2 t

/-- Decoded byte length of one chunk. -/
def chunkLen (h : String) : Nat := ((pyFromhex h).getD []).length

/-- Inductive core: a run of decodable chunks through an active
transfer adds exactly the decoded lengths to the offset, keeps the
on-disk size equal to the offset, and keeps the transfer active. -/
theorem runUploadData_spec (hexes : List String) :
    ∀ st fs f, st.transfer_in_progress = true → st.transfer_file = some f →
    fsSize fs f = st.transfer_offset →
    (∀ h ∈ hexes, (pyFromhex h).isSome) →
    (runUploadData st fs hexes).1.transfer_offset =
      st.transfer_offset + (hexes.map chunkLen).sum ∧
    fsSize (runUploadData st fs hexes).2 f =
      (runUploadData st fs hexes).1.transfer_offset ∧
    (runUploadData st fs hexes).1.transfer_in_progress = true ∧
    (runUploadData st fs hexes).1.transfer_file = some f := by
  induction hexes with
  | nil =>
    intro st fs f hact hf hsz _
    exact ⟨by simp [runUploadData], by simpa [runUploadData] using hsz,
      by simpa [runUploadData] using hact, by simpa [runUploadData] using hf⟩
  | cons h t ih =>
    intro st fs f hact hf hsz hall
    obtain ⟨bs, hbs⟩ := Option.isSome_iff_exists.mp (hall h (by simp))
    have hstep := upload_data_ok_step st fs f h bs hact hf hbs
    have hrun : runUploadData st fs (h :: t) =
        runUploadData { st with transfer_offset := st.transfer_offset + bs.length }
          (fsAppend fs f bs) t := by
      simp only [runUploadData, hstep]
    have hsz2 : fsSize (fsAppend fs f bs) f =
        ({ st with transfer_offset := st.transfer_offset + bs.length } :
          SessionState).transfer_offset := by
      rw [fsSize_fsAppend_self, hsz]
    have := ih { st with transfer_offset := st.transfer_offset + bs.length }
      (fsAppend fs f bs) f hact hf hsz2 (fun x hx => hall x (by simp [hx]))
    rw [hrun]
    refine ⟨?_, this.2.1, this.2.2.1, this.2.2.2⟩
    rw [this.1]
    simp [chunkLen, hbs]
    omega

/-- `C5`: a run of `N` successful `UPLOAD_DATA` commands on an active
transfer ends with the offset equal to the starting offset plus the
sum of the decoded chunk lengths, with the on-disk size equal to that
offset; the offset never decreases along the run, and more generally
no dispatched command other than `UPLOAD` (which creates a fresh
transfer state, per the data model's lifecycle) ever decreases the
offset of an active, non-errored transfer. -/
theorem C5_upload_data_sequence (st : SessionState) (fs : FS) (f : String)
    (hexes : List String)
    (hact : st.transfer_in_progress = true) (hf : st.transfer_file = some f)
    (hsz : fsSize fs f = st.transfer_offset)
    (hall : ∀ h ∈ hexes, (pyFromhex h).isSome) :
    (runUploadData st fs hexes).1.transfer_offset =
      st.transfer_offset + (hexes.map chunkLen).sum ∧
    fsSize (runUploadData st fs hexes).2 f =
      (runUploadData st fs hexes).1.transfer_offset ∧
    (∀ k, (runUploadData st fs (hexes.take k)).1.transfer_offset ≤
      (runUploadData st fs (hexes.take (k + 1))).1.transfer_offset) ∧
    (∀ (d : Bool) (command : String) (st2 : SessionState) (fs2 : FS),
      st2.transfer_in_progress = true → st2.error_flag = false →
      (∀ p0 rest, pySplit command = p0 :: rest → pyUpper p0 ≠ "UPLOAD") →
      st2.transfer_offset ≤
        (gestionnaire_commandes d command st2 fs2).2.1.transfer_offset) := by
  have hmain := runUploadData_spec hexes st fs f hact hf hsz hall
  refine ⟨hmain.1, hmain.2.1, ?_, ?_⟩
  · intro k
    have h1 := runUploadData_spec (hexes.take k) st fs f hact hf hsz
      (fun x hx => hall x (List.mem_of_mem_take hx))
    have h2 := runUploadData_spec (hexes.take (k + 1)) st fs f hact hf hsz
      (fun x hx => hall x (List.mem_of_mem_take hx))
    rw [h1.1, h2.1]
    have : ((hexes.take k).map chunkLen).sum ≤
        ((hexes.take (k + 1)).map chunkLen).sum := by
      rw [List.take_succ, List.map_append, List.sum_append]
      exact Nat.le_add_right _ _
    omega
  · intro d command st2 fs2 _ _ hnup
    exact gestionnaire_offset_mono d command st2 fs2 hnup

/-- Closed instance of `C5_upload_data_sequence`: two chunks `aabb`
and `cc` uploaded to the fresh file `f`. -/
theorem C5_witness :
    (runUploadData transferState [("f", [])] ["aabb", "cc"]).1.transfer_offset =
      transferState.transfer_offset +
        ((["aabb", "cc"].map chunkLen).sum) ∧
    fsSize (runUploadData transferState [("f", [])] ["aabb", "cc"]).2 "f" =
      (runUploadData transferState [("f", [])] ["aabb", "cc"]).1.transfer_offset := by
  have := C5_upload_data_sequence transferState [("f", [])] "f" ["aabb", "cc"]
    rfl (by decide) (by decide) (by decide)
  exact ⟨this.1, this.2.1⟩

/-! ### Chunking and hex roundtrip lemmas -/

theorem chunks512F_eq (fuel : Nat) : ∀ l : List Nat, l.length ≤ fuel →
    chunks512F fuel l = chunks512F l.length l := by
  induction fuel using Nat.strong_induction_on with
  | _ fuel ih =>
    intro l h
    match l with
    | [] => cases fuel <;> rfl
    | b :: rest =>
      match fuel, h with
      | f + 1, h =>
        have hr : rest.length ≤ f := by simpa using h
        have hd1 : (rest.drop 511).length ≤ f := by
          rw [List.length_drop]; omega
        have hd2 : (rest.drop 511).length ≤ rest.length := by
          rw [List.length_drop]; omega
        simp only [List.length_cons, chunks512F]
        rw [ih f (by omega) _ hd1, ih rest.length (by omega) _ hd2]

theorem chunks512_nil : chunks512 [] = [] := rfl

theorem chunks512_cons (b : Nat) (rest : List Nat) :
    chunks512 (b :: rest) =
      (b :: rest).take 512 :: chunks512 ((b :: rest).drop 512) := by
  show chunks512F (rest.length + 1) (b :: rest) = _
  simp only [chunks512F]
  congr 1
  have hdrop : (b :: rest).drop 512 = rest.drop 511 := rfl
  rw [hdrop, chunks512]
  exact chunks512F_eq rest.length _ (by rw [List.length_drop]; omega)

theorem chunks512_flatten_aux (n : Nat) : ∀ l : List Nat, l.length ≤ n →
    (chunks512 l).flatten = l := by
  induction n with
  | zero =>
    intro l h
    match l with
    | [] => rfl
  | succ n ih =>
    intro l h
    match l with
    | [] => rfl
    | b :: rest =>
      have hlen : ((b :: rest).drop 512).length ≤ n := by
        rw [List.length_drop]
        simp only [List.length_cons]
        simp only [List.length_cons] at h
        omega
      rw [chunks512_cons, List.flatten_cons, ih _ hlen, List.take_append_drop]

theorem chunks512_flatten (l : List Nat) : (chunks512 l).flatten = l :=
  chunks512_flatten_aux l.length l le_rfl

theorem chunks512_length_le_aux (n : Nat) : ∀ l : List Nat, l.length ≤ n →
    ∀ c ∈ chunks512 l, c.length ≤ 512 := by
  induction n with
  | zero =>
    intro l h
    match l with
    | [] => simp [chunks512, chunks512F]
  | succ n ih =>
    intro l h
    match l with
    | [] => simp [chunks512, chunks512F]
    | b :: rest =>
      intro c hc
      rw [chunks512_cons] at hc
      rcases List.mem_cons.mp hc with hh | hh
      · subst hh
        rw [List.length_take]
        exact min_le_left _ _
      · have hlen : ((b :: rest).drop 512).length ≤ n := by
          rw [List.length_drop]
          simp only [List.length_cons]
          simp only [List.length_cons] at h
          omega
        exact ih _ hlen c hh

theorem chunks512_length_le (l : List Nat) :
    ∀ c ∈ chunks512 l, c.length ≤ 512 :=
  chunks512_length_le_aux l.length l le_rfl

theorem chunks512_mem_mem {l c : List Nat} {b : Nat}
    (hc : c ∈ chunks512 l) (hb : b ∈ c) : b ∈ l := by
  have : b ∈ (chunks512 l).flatten := List.mem_flatten.mpr ⟨c, hc, hb⟩
  rwa [chunks512_flatten] at this

theorem pyStartsWith_append (s t : String)
    (h : pyStartsWith "ERREUR:" s = true) :
    pyStartsWith "ERREUR:" (s ++ t) = true := by
  unfold pyStartsWith at h ⊢
  rw [List.isPrefixOf_iff_prefix] at h ⊢
  rw [String.data_append]
  exact h.trans (List.prefix_append _ _)

theorem hexDigit_roundtrip : ∀ d < 16, hexDigitVal (hexDigitChar d) = some d := by
  decide

theorem hexDigitChar_ne_space : ∀ d < 16, hexDigitChar d ≠ ' ' := by
  decide

/-- Decoding the lowercase hex of a byte list gives the bytes back. -/
theorem fromhex_bytesToHex (bs : List Nat) (h : ∀ b ∈ bs, b < 256) :
    pyFromhex (bytesToHex bs) = some bs := by
  induction bs with
  | nil => rfl
  | cons b t ih =>
    have hb : b < 256 := h b (by simp)
    have h1 : hexDigitVal (hexDigitChar (b / 16 % 16)) = some (b / 16 % 16) :=
      hexDigit_roundtrip _ (by omega)
    have h2 : hexDigitVal (hexDigitChar (b % 16)) = some (b % 16) :=
      hexDigit_roundtrip _ (by omega)
    have hne : ¬(hexDigitChar (b / 16 % 16) = ' ') :=
      hexDigitChar_ne_space _ (by omega)
    have hdata : (bytesToHex (b :: t)).data =
        hexDigitChar (b / 16 % 16) :: hexDigitChar (b % 16) ::
          (bytesToHex t).data := by
      simp [bytesToHex]
    have hrest : fromhexAux (bytesToHex t).data = some t :=
      ih (fun x hx => h x (by simp [hx]))
    have hval : 16 * (b / 16 % 16) + b % 16 = b := by omega
    show fromhexAux (bytesToHex (b :: t)).data = some (b :: t)
    rw [hdata]
    simp only [fromhexAux, hne, if_false, h1, h2, hrest, Option.map_some]
    rw [hval]
    rfl

/-- `C7`: a `DOWNLOAD name offset` on an existing file emits exactly
the header `DOWNLOAD_READY name offset=N`, one `CHUNK <hex>` line per
512-byte block of the file's bytes from the requested offset, and the
final `DOWNLOAD_END`; each chunk holds at most 512 bytes, the chunks
concatenate to the file's bytes from the offset to the end, and each
`CHUNK` payload hex-decodes back to its block.  On a nonexistent file
a single `ERREUR:` line is emitted and no chunk. -/
theorem C7_download_stream (command name offStr : String) (n : Int) (fs : FS)
    (hsplit : pySplit command = ["DOWNLOAD", name, offStr])
    (hoff : pyInt offStr = some n) (hn : 0 ≤ n) :
    (∀ content, fsLookup fs name = some content →
      cmd_download command fs =
        ("DOWNLOAD_READY " ++ name ++ " offset=" ++ toString n) ::
          (chunks512 (content.drop n.toNat)).map
            (fun c => "CHUNK " ++ bytesToHex c) ++
          ["DOWNLOAD_END"] ∧
      (∀ c ∈ chunks512 (content.drop n.toNat), c.length ≤ 512) ∧
      (chunks512 (content.drop n.toNat)).flatten = content.drop n.toNat ∧
      ((∀ b ∈ content, b < 256) →
        ∀ c ∈ chunks512 (content.drop n.toNat),
          pyFromhex (bytesToHex c) = some c)) ∧
    (fsLookup fs name = none →
      cmd_download command fs =
        ["ERREUR: Le fichier \x27" ++ name ++ "\x27 n\x27existe pas"] ∧
      pyStartsWith "ERREUR:"
        ("ERREUR: Le fichier \x27" ++ name ++ "\x27 n\x27existe pas") = true) := by
  constructor
  · intro content hl
    have hstream : cmd_download command fs =
        ("DOWNLOAD_READY " ++ name ++ " offset=" ++ toString n) ::
          (chunks512 (content.drop n.toNat)).map
            (fun c => "CHUNK " ++ bytesToHex c) ++
          ["DOWNLOAD_END"] := by
      simp only [cmd_download, hsplit, hoff, hl]
      rw [if_neg (not_lt.mpr hn)]
    refine ⟨hstream, chunks512_length_le _, chunks512_flatten _, ?_⟩
    intro h256 c hc
    exact fromhex_bytesToHex c
      (fun b hb => h256 b (List.mem_of_mem_drop (chunks512_mem_mem hc hb)))
  · intro hl
    constructor
    · simp only [cmd_download, hsplit, hoff, hl]
    · exact pyStartsWith_append _ _ (pyStartsWith_append _ _ (by decide))

/-- Closed instance of `C7_download_stream`: the five bytes of
`Hello` downloaded from offset 2, and a missing file `g`. -/
theorem C7_witness :
    cmd_download "DOWNLOAD f 2" [("f", [72, 101, 108, 108, 111])] =
      ["DOWNLOAD_READY f offset=2", "CHUNK " ++ bytesToHex [108, 108, 111],
       "DOWNLOAD_END"] ∧
    cmd_download "DOWNLOAD g 0" [("f", [72, 101, 108, 108, 111])] =
      ["ERREUR: Le fichier \x27g\x27 n\x27existe pas"] := by
  have h1 := (C7_download_stream "DOWNLOAD f 2" "f" "2" 2
    [("f", [72, 101, 108, 108, 111])] (by decide) (by decide) (by decide)).1
    [72, 101, 108, 108, 111] (by decide)
  have h2 := (C7_download_stream "DOWNLOAD g 0" "g" "0" 0
    [("f", [72, 101, 108, 108, 111])] (by decide) (by decide) (by decide)).2
    (by decide)
  refine ⟨?_, h2.1⟩
  rw [h1.1]
  rfl

/-! ### Error paths leave the session unchanged (C8) -/

/-- The response starts with `ERREUR:` and session state and
filesystem come back unchanged. -/
def errUnchanged (r : String × SessionState × FS) (st : SessionState)
    (fs : FS) : Prop :=
  pyStartsWith "ERREUR:" r.1 = true ∧ r.2.1 = st ∧ r.2.2 = fs

/-- Packs the two unchanged components with a prefix proof. -/
theorem errUnchanged_mk (s : String) (st : SessionState) (fs : FS)
    (h : pyStartsWith "ERREUR:" s = true) : errUnchanged (s, st, fs) st fs :=
  ⟨h, rfl, rfl⟩

/-- The closed set of verbs the dispatcher recognises. -/
def knownVerbs : List String :=
  ["LIST", "OPEN", "CREATE", "RENAME", "DELETE", "READ", "WRITE", "CLOSE",
   "UPLOAD", "UPLOAD_DATA", "UPLOAD_END", "RESUME_UPLOAD"]

/-- `C8`: every non-transfer command that fails its precondition — an
empty line, an unknown verb, missing required arguments, a referenced
file that does not exist, or a state conflict (`OPEN`/`CREATE` while a
file is open, `READ`/`WRITE`/`CLOSE` with none open) — is answered
with a response starting `ERREUR:` and leaves the session state and
the filesystem unchanged. -/
theorem C8_error_paths (d : Bool) (st : SessionState) (fs : FS)
    (command : String) :
    (pySplit command = [] →
      errUnchanged (gestionnaire_commandes d command st fs) st fs) ∧
    (∀ p0 rest, pySplit command = p0 :: rest → pyUpper p0 ∉ knownVerbs →
      errUnchanged (gestionnaire_commandes d command st fs) st fs) ∧
    (∀ p0 rest, pySplit command = p0 :: rest → pyUpper p0 = "OPEN" →
      st.open_file.isSome = true →
      errUnchanged (gestionnaire_commandes d command st fs) st fs) ∧
    (∀ p0, pySplit command = [p0] → pyUpper p0 = "OPEN" →
      st.open_file = none →
      errUnchanged (gestionnaire_commandes d command st fs) st fs) ∧
    (∀ p0 name rest, pySplit command = p0 :: name :: rest →
      pyUpper p0 = "OPEN" → st.open_file = none → fsLookup fs name = none →
      errUnchanged (gestionnaire_commandes d command st fs) st fs) ∧
    (∀ p0 rest, pySplit command = p0 :: rest → pyUpper p0 = "CREATE" →
      st.open_file.isSome = true →
      errUnchanged (gestionnaire_commandes d command st fs) st fs) ∧
    (∀ p0, pySplit command = [p0] → pyUpper p0 = "CREATE" →
      st.open_file = none →
      errUnchanged (gestionnaire_commandes d command st fs) st fs) ∧
    (∀ p0 rest, pySplit command = p0 :: rest → pyUpper p0 = "RENAME" →
      rest.length < 2 →
      errUnchanged (gestionnaire_commandes d command st fs) st fs) ∧
    (∀ p0 old new_name rest, pySplit command = p0 :: old :: new_name :: rest →
      pyUpper p0 = "RENAME" → fsLookup fs old = none →
      errUnchanged (gestionnaire_commandes d command st fs) st fs) ∧
    (∀ p0, pySplit command = [p0] → pyUpper p0 = "DELETE" →
      errUnchanged (gestionnaire_commandes d command st fs) st fs) ∧
    (∀ p0 name rest, pySplit command = p0 :: name :: rest →
      pyUpper p0 = "DELETE" → fsLookup fs name = none →
      errUnchanged (gestionnaire_commandes d command st fs) st fs) ∧
    (∀ p0 rest, pySplit command = p0 :: rest → pyUpper p0 = "READ" →
      st.open_file = none →
      errUnchanged (gestionnaire_commandes d command st fs) st fs) ∧
    (∀ p0 rest, pySplit command = p0 :: rest → pyUpper p0 = "WRITE" →
      st.open_file = none →
      errUnchanged (gestionnaire_commandes d command st fs) st fs) ∧
    (∀ p0 name, pySplit command = [p0] → pyUpper p0 = "WRITE" →
      st.open_file = some name →
      errUnchanged (gestionnaire_commandes d command st fs) st fs) ∧
    (∀ p0 rest, pySplit command = p0 :: rest → pyUpper p0 = "CLOSE" →
      st.open_file = none →
      errUnchanged (gestionnaire_commandes d command st fs) st fs) := by
  refine ⟨?_, ?_, ?_, ?_, ?_, ?_, ?_, ?_, ?_, ?_, ?_, ?_, ?_, ?_, ?_⟩
  · intro hs
    have heq : gestionnaire_commandes d command st fs =
        ("ERREUR: Commande vide", st, fs) := by
      simp [gestionnaire_commandes, hs]
    rw [heq]
    exact errUnchanged_mk _ st fs (by decide)
  · intro p0 rest hs hnot
    simp only [knownVerbs, List.mem_cons, List.not_mem_nil, or_false,
      not_or] at hnot
    obtain ⟨n1, n2, n3, n4, n5, n6, n7, n8, n9, n10, n11, n12⟩ := hnot
    have heq : gestionnaire_commandes d command st fs =
        ("ERREUR: Commande non reconnue", st, fs) := by
      simp only [gestionnaire_commandes, hs]
      rw [if_neg n1, if_neg n2, if_neg n3, if_neg n4, if_neg n5, if_neg n6,
        if_neg n7, if_neg n8, if_neg n9, if_neg n10, if_neg n11, if_neg n12]
    rw [heq]
    exact errUnchanged_mk _ st fs (by decide)
  · intro p0 rest hs hv hopen
    have heq : gestionnaire_commandes d command st fs =
        ("ERREUR: Un fichier est déjà ouvert", st, fs) := by
      simp [gestionnaire_commandes, hs, hv, cmd_open, hopen]
    rw [heq]
    exact errUnchanged_mk _ st fs (by decide)
  · intro p0 hs hv hopen
    have heq : gestionnaire_commandes d command st fs =
        ("ERREUR: OPEN nécessite un nom de fichier", st, fs) := by
      simp [gestionnaire_commandes, hs, hv, cmd_open, hopen]
    rw [heq]
    exact errUnchanged_mk _ st fs (by decide)
  · intro p0 name rest hs hv hopen hnf
    have heq : gestionnaire_commandes d command st fs =
        ("ERREUR: Le fichier \x27" ++ name ++ "\x27 n\x27existe pas", st, fs) := by
      simp [gestionnaire_commandes, hs, hv, cmd_open, hopen, hnf]
    rw [heq]
    exact errUnchanged_mk _ st fs
      (pyStartsWith_append _ _ (pyStartsWith_append _ _ (by decide)))
  · intro p0 rest hs hv hopen
    have heq : gestionnaire_commandes d command st fs =
        ("ERREUR: Un fichier est déjà ouvert", st, fs) := by
      simp [gestionnaire_commandes, hs, hv, cmd_create, hopen]
    rw [heq]
    exact errUnchanged_mk _ st fs (by decide)
  · intro p0 hs hv hopen
    have heq : gestionnaire_commandes d command st fs =
        ("ERREUR: CREATE nécessite un nom de fichier", st, fs) := by
      simp [gestionnaire_commandes, hs, hv, cmd_create, hopen]
    rw [heq]
    exact errUnchanged_mk _ st fs (by decide)
  · intro p0 rest hs hv hlen
    have heq : gestionnaire_commandes d command st fs =
        ("ERREUR: RENAME nécessite un ancien et un nouveau nom", st, fs) := by
      match rest, hlen with
      | [], _ => simp [gestionnaire_commandes, hs, hv, cmd_rename]
      | [x], _ => simp [gestionnaire_commandes, hs, hv, cmd_rename]
    rw [heq]
    exact errUnchanged_mk _ st fs (by decide)
  · intro p0 old new_name rest hs hv hnf
    have heq : gestionnaire_commandes d command st fs =
        ("ERREUR: Le fichier \x27" ++ old ++ "\x27 n\x27existe pas", st, fs) := by
      simp [gestionnaire_commandes, hs, hv, cmd_rename, hnf]
    rw [heq]
    exact errUnchanged_mk _ st fs
      (pyStartsWith_append _ _ (pyStartsWith_append _ _ (by decide)))
  · intro p0 hs hv
    have heq : gestionnaire_commandes d command st fs =
        ("ERREUR: DELETE nécessite un nom de fichier", st, fs) := by
      simp [gestionnaire_commandes, hs, hv, cmd_delete]
    rw [heq]
    exact errUnchanged_mk _ st fs (by decide)
  · intro p0 name rest hs hv hnf
    have heq : gestionnaire_commandes d command st fs =
        ("ERREUR: Le fichier \x27" ++ name ++ "\x27 n\x27existe pas", st, fs) := by
      simp [gestionnaire_commandes, hs, hv, cmd_delete, hnf]
    rw [heq]
    exact errUnchanged_mk _ st fs
      (pyStartsWith_append _ _ (pyStartsWith_append _ _ (by decide)))
  · intro p0 rest hs hv hopen
    have heq : gestionnaire_commandes d command st fs =
        ("ERREUR: Aucun fichier ouvert. Utilise OPEN ou CREATE d\x27abord",
         st, fs) := by
      simp [gestionnaire_commandes, hs, hv, cmd_read, hopen]
    rw [heq]
    exact errUnchanged_mk _ st fs (by decide)
  · intro p0 rest hs hv hopen
    have heq : gestionnaire_commandes d command st fs =
        ("ERREUR: Aucun fichier ouvert. Utilise OPEN ou CREATE d\x27abord",
         st, fs) := by
      simp [gestionnaire_commandes, hs, hv, cmd_write, hopen]
    rw [heq]
    exact errUnchanged_mk _ st fs (by decide)
  · intro p0 name hs hv hopen
    have heq : gestionnaire_commandes d command st fs =
        ("ERREUR: WRITE nécessite des données à écrire", st, fs) := by
      simp [gestionnaire_commandes, hs, hv, cmd_write, hopen]
    rw [heq]
    exact errUnchanged_mk _ st fs (by decide)
  · intro p0 rest hs hv hopen
    have heq : gestionnaire_commandes d command st fs =
        ("ERREUR: Aucun fichier ouvert à fermer", st, fs) := by
      simp [gestionnaire_commandes, hs, hv, cmd_close, hopen]
    rw [heq]
    exact errUnchanged_mk _ st fs (by decide)

/-! ### Case-insensitive dispatch (C10) -/

/-- Uppercases the leading token of a raw line, leaving the leading
whitespace, the separators and every later token untouched: the
transformation relating `open f` to `OPEN f`. -/
def upcaseTok : List Char → List Char
  | [] => []
  | c :: cs => if pySpace c then c :: cs else pyCharUpper c :: upcaseTok cs

/-- See `upcaseTok`: skips leading whitespace first. -/
def upcaseFirstTokChars : List Char → List Char
  | [] => []
  | c :: cs =>
    if pySpace c then c :: upcaseFirstTokChars cs
    else pyCharUpper c :: upcaseTok cs

/-- The command line with its verb uppercased. -/
def upcaseFirstTok (s : String) : String :=
  String.mk (upcaseFirstTokChars s.data)

/-- Uppercase the head token of a token list. -/
def strMapHead : List String → List String
  | [] => []
  | x :: xs => pyUpper x :: xs

/-- Head-token map at the character-list level. -/
def mapHeadChars : List (List Char) → List (List Char)
  | [] => []
  | x :: xs => x.map pyCharUpper :: xs

theorem toNat_ofNat_valid (n : Nat) (h : n.isValidChar) :
    (Char.ofNat n).toNat = n := by
  unfold Char.ofNat
  split
  · rfl
  · contradiction

theorem pyCharUpper_toNat (c : Char) :
    (pyCharUpper c).toNat =
      if 97 ≤ c.toNat ∧ c.toNat ≤ 122 then c.toNat - 32 else c.toNat := by
  unfold pyCharUpper
  split
  · rename_i h
    exact toNat_ofNat_valid _ (Or.inl (by omega))
  · rfl

theorem pyCharUpper_of_not_lower (c : Char)
    (h : ¬(97 ≤ c.toNat ∧ c.toNat ≤ 122)) : pyCharUpper c = c := by
  unfold pyCharUpper
  rw [if_neg h]

theorem pyCharUpper_idem (c : Char) :
    pyCharUpper (pyCharUpper c) = pyCharUpper c := by
  apply pyCharUpper_of_not_lower
  rw [pyCharUpper_toNat]
  split_ifs with h <;> omega

theorem pySpace_pyCharUpper (c : Char) :
    pySpace (pyCharUpper c) = pySpace c := by
  rw [Bool.eq_iff_iff]
  simp only [pySpace, Bool.or_eq_true, beq_iff_eq]
  rw [pyCharUpper_toNat]
  split_ifs with h <;> omega

theorem map_pyCharUpper_upcaseTok (l : List Char) :
    (upcaseTok l).map pyCharUpper = l.map pyCharUpper := by
  induction l with
  | nil => rfl
  | cons c cs ih =>
    by_cases hsp : pySpace c
    · simp [upcaseTok, hsp]
    · simp only [upcaseTok, hsp, Bool.false_eq_true, if_false, List.map_cons,
        pyCharUpper_idem, ih]

theorem map_pyCharUpper_upcaseFirstTok (l : List Char) :
    (upcaseFirstTokChars l).map pyCharUpper = l.map pyCharUpper := by
  induction l with
  | nil => rfl
  | cons c cs ih =>
    by_cases hsp : pySpace c
    · simp only [upcaseFirstTokChars, hsp, if_true, List.map_cons, ih]
    · simp only [upcaseFirstTokChars, hsp, Bool.false_eq_true, if_false,
        List.map_cons, pyCharUpper_idem, map_pyCharUpper_upcaseTok]

theorem pySplitAux_upcaseTok (l : List Char) :
    ∀ acc : List Char, acc ≠ [] →
    pySplitAux (upcaseTok l) (acc.map pyCharUpper) =
      mapHeadChars (pySplitAux l acc) := by
  induction l with
  | nil =>
    intro acc hne
    have hmapne : acc.map pyCharUpper ≠ [] := by
      simpa using hne
    simp only [upcaseTok, pySplitAux, if_neg hmapne, if_neg hne, mapHeadChars,
      List.map_reverse]
  | cons c cs ih =>
    intro acc hne
    have hmapne : acc.map pyCharUpper ≠ [] := by
      simpa using hne
    by_cases hsp : pySpace c
    · simp only [upcaseTok, hsp, if_true, pySplitAux, if_neg hmapne,
        if_neg hne, mapHeadChars, List.map_reverse]
    · have hsp2 : pySpace (pyCharUpper c) = false := by
        rw [pySpace_pyCharUpper]
        exact Bool.not_eq_true _ ▸ (by simpa using hsp)
      simp only [upcaseTok, hsp, Bool.false_eq_true, if_false, pySplitAux,
        hsp2]
      have : pyCharUpper c :: acc.map pyCharUpper =
          (c :: acc).map pyCharUpper := rfl
      rw [this, ih (c :: acc) (by simp)]

theorem pySplitAux_upcaseFirstTok (l : List Char) :
    pySplitAux (upcaseFirstTokChars l) [] =
      mapHeadChars (pySplitAux l []) := by
  induction l with
  | nil => rfl
  | cons c cs ih =>
    by_cases hsp : pySpace c
    · simp only [upcaseFirstTokChars, hsp, if_true, pySplitAux, if_pos rfl]
      exact ih
    · have hsp2 : pySpace (pyCharUpper c) = false := by
        rw [pySpace_pyCharUpper]
        exact Bool.not_eq_true _ ▸ (by simpa using hsp)
      simp only [upcaseFirstTokChars, hsp, Bool.false_eq_true, if_false,
        pySplitAux, hsp2]
      have h1 : [pyCharUpper c] = [c].map pyCharUpper := rfl
      rw [h1, pySplitAux_upcaseTok cs [c] (by simp)]

theorem pySplit_upcaseFirstTok (s : String) :
    pySplit (upcaseFirstTok s) = strMapHead (pySplit s) := by
  show ((pySplitChars (upcaseFirstTokChars s.data)).map String.mk) = _
  unfold pySplitChars
  rw [pySplitAux_upcaseFirstTok]
  unfold pySplit pySplitChars
  cases pySplitAux s.data [] with
  | nil => rfl
  | cons t ts => rfl

theorem pyUpper_upcaseFirstTok (s : String) :
    pyUpper (upcaseFirstTok s) = pyUpper s := by
  show String.mk ((upcaseFirstTokChars s.data).map pyCharUpper) = _
  rw [map_pyCharUpper_upcaseFirstTok]
  rfl

theorem pyUpper_idem (s : String) : pyUpper (pyUpper s) = pyUpper s := by
  show String.mk ((s.data.map pyCharUpper).map pyCharUpper) = _
  rw [List.map_map]
  congr 1
  exact List.map_congr_left (fun c _ => pyCharUpper_idem c)

theorem cmd_open_head (st : SessionState) (v w : String) (args : List String)
    (fs : FS) : cmd_open st (v :: args) fs = cmd_open st (w :: args) fs := by
  cases args with
  | nil => rfl
  | cons a as => cases as <;> rfl

theorem cmd_create_head (st : SessionState) (v w : String) (args : List String)
    (fs : FS) : cmd_create st (v :: args) fs = cmd_create st (w :: args) fs := by
  cases args with
  | nil => rfl
  | cons a as => cases as <;> rfl

theorem cmd_rename_head (st : SessionState) (v w : String) (args : List String)
    (fs : FS) : cmd_rename st (v :: args) fs = cmd_rename st (w :: args) fs := by
  cases args with
  | nil => rfl
  | cons a as => cases as <;> rfl

theorem cmd_delete_head (st : SessionState) (v w : String) (args : List String)
    (fs : FS) : cmd_delete st (v :: args) fs = cmd_delete st (w :: args) fs := by
  cases args with
  | nil => rfl
  | cons a as => cases as <;> rfl

theorem cmd_write_head (st : SessionState) (v w : String) (args : List String)
    (fs : FS) : cmd_write st (v :: args) fs = cmd_write st (w :: args) fs := by
  cases args with
  | nil => rfl
  | cons a as => cases as <;> rfl

theorem cmd_begin_upload_head (st : SessionState) (v w : String)
    (args : List String) (fs : FS) :
    cmd_begin_upload st (v :: args) fs = cmd_begin_upload st (w :: args) fs := by
  cases args with
  | nil => rfl
  | cons a as => cases as <;> rfl

theorem cmd_upload_data_head (d : Bool) (st : SessionState) (v w : String)
    (args : List String) (fs : FS) :
    cmd_upload_data d st (v :: args) fs = cmd_upload_data d st (w :: args) fs := by
  cases args with
  | nil => rfl
  | cons a as => cases as <;> rfl

set_option maxHeartbeats 1600000 in
theorem gestionnaire_upcaseFirstTok (d : Bool) (command : String)
    (st : SessionState) (fs : FS) :
    gestionnaire_commandes d (upcaseFirstTok command) st fs =
      gestionnaire_commandes d command st fs := by
  unfold gestionnaire_commandes
  rw [pySplit_upcaseFirstTok]
  match hs : pySplit command with
  | [] => rfl
  | p0 :: rest =>
    dsimp only [strMapHead]
    rw [pyUpper_idem]
    exact if_congr Iff.rfl rfl
      (if_congr Iff.rfl (cmd_open_head st _ p0 rest fs)
      (if_congr Iff.rfl (cmd_create_head st _ p0 rest fs)
      (if_congr Iff.rfl (cmd_rename_head st _ p0 rest fs)
      (if_congr Iff.rfl (cmd_delete_head st _ p0 rest fs)
      (if_congr Iff.rfl rfl
      (if_congr Iff.rfl (cmd_write_head st _ p0 rest fs)
      (if_congr Iff.rfl rfl
      (if_congr Iff.rfl (cmd_begin_upload_head st _ p0 rest fs)
      (if_congr Iff.rfl (cmd_upload_data_head d st _ p0 rest fs)
      (if_congr Iff.rfl rfl
      (if_congr Iff.rfl rfl rfl)))))))))))

theorem cmd_download_upcaseFirstTok (command : String) (fs : FS) :
    cmd_download (upcaseFirstTok command) fs = cmd_download command fs := by
  unfold cmd_download
  rw [pySplit_upcaseFirstTok]
  match hs : pySplit command with
  | [] => rfl
  | [p0] => rfl
  | p0 :: f :: rs => rfl

/-- `C10`: command verbs are matched case-insensitively: uppercasing
the first token of any command line (e.g. turning `open f` into
`OPEN f`, or `download f 0` into `DOWNLOAD f 0`) changes neither the
emitted lines nor the resulting session state nor the filesystem,
because the dispatcher uppercases the verb before comparing and the
`DOWNLOAD` streaming path is selected on the uppercased line. -/
theorem C10_case_insensitive_verbs (d : Bool) (command : String)
    (st : SessionState) (fs : FS) :
    processCommand d (upcaseFirstTok command) st fs =
      processCommand d command st fs := by
  unfold processCommand
  rw [pyUpper_upcaseFirstTok, cmd_download_upcaseFirstTok,
    gestionnaire_upcaseFirstTok]

/-! ### Upload driver lemmas (C6) -/

theorem sendChunks_nil (off : Int) (env : Env) :
    (sendChunks [] off env).2.2.2 = ["UPLOAD_END"] ∧
    ((sendChunks [] off env).1 = .success ∨
     (sendChunks [] off env).1 = .excRetry) := by
  cases env with
  | nil => exact ⟨rfl, Or.inr rfl⟩
  | cons e es =>
    cases e with
    | none => exact ⟨rfl, Or.inr rfl⟩
    | some r => exact ⟨rfl, Or.inl rfl⟩

theorem sendChunks_cons_head (c : List Nat) (rest : List (List Nat))
    (off : Int) (env : Env) :
    (sendChunks (c :: rest) off env).2.2.2.head? =
      some ("UPLOAD_DATA " ++ bytesToHex c) := by
  cases env with
  | nil => rfl
  | cons e es =>
    cases e with
    | none => rfl
    | some r =>
      by_cases h1 : pyStartsWith "UPLOAD_ERROR" r = true
      · simp [sendChunks, envNext, h1]
      · by_cases h2 : pyStartsWith "UPLOAD_DATA_OK" r = true
        · cases h3 : offsetParse r <;> simp [sendChunks, envNext, h1, h2, h3]
        · simp [sendChunks, envNext, h1, h2]

/-- The per-attempt guarantees of `upload_file`: an attempt either
sends nothing (it raised before the first exchange) or opens with
`UPLOAD name`; when the server accepted the initiation with offset
`N`, the command after `UPLOAD` is determined by `N` alone — the
chunk read at `N`, or `UPLOAD_END` when the file holds no byte past
`N`. -/
theorem uploadAttempt_props (name : String) (content : List Nat)
    (off0 : Int) (env : Env) :
    ((uploadAttempt name content off0 env).1.cmds = [] ∨
      (uploadAttempt name content off0 env).1.cmds.head? =
        some ("UPLOAD " ++ name)) ∧
    (∀ N, (uploadAttempt name content off0 env).1.serverOff = some N →
      (uploadAttempt name content off0 env).1.cmds.head? =
        some ("UPLOAD " ++ name) ∧
      (uploadAttempt name content off0 env).1.cmds.tail.head? =
        some (if content.drop N = [] then "UPLOAD_END"
          else "UPLOAD_DATA " ++ bytesToHex ((content.drop N).take 512)) ∧
      (content.drop N = [] →
        (uploadAttempt name content off0 env).1.cmds =
          ["UPLOAD " ++ name, "UPLOAD_END"] ∧
        ((uploadAttempt name content off0 env).1.res = .success ∨
         (uploadAttempt name content off0 env).1.res = .excRetry))) := by
  by_cases hneg : off0 < 0
  · constructor
    · left
      simp [uploadAttempt, hneg]
    · intro N hN
      simp [uploadAttempt, hneg] at hN
  · have hred : uploadAttempt name content off0 env =
        (match envNext env with
         | (none, env2) =>
           ({ cmds := ["UPLOAD " ++ name], res := .excRetry,
              serverOff := none }, off0, env2)
         | (some r, env2) =>
           if pyStartsWith "UPLOAD_READY" r || pyStartsWith "UPLOAD_RESUME" r then
             match offsetParse r with
             | none =>
               ({ cmds := ["UPLOAD " ++ name], res := .excRetry,
                  serverOff := none }, off0, env2)
             | some n =>
               if n < 0 then
                 ({ cmds := ["UPLOAD " ++ name], res := .excRetry,
                    serverOff := none }, n, env2)
               else
                 let r2 := sendChunks (chunks512 (content.drop n.toNat)) n env2
                 ({ cmds := ("UPLOAD " ++ name) :: r2.2.2.2, res := r2.1,
                    serverOff := some n.toNat }, r2.2.1, r2.2.2.1)
           else
             ({ cmds := ["UPLOAD " ++ name], res := .aborted,
                serverOff := none }, off0, env2)) := by
      simp [uploadAttempt, hneg]
    rw [hred]
    cases env with
    | nil => exact ⟨Or.inr rfl, fun N hN => by simp [envNext] at hN⟩
    | cons e es =>
      cases e with
      | none => exact ⟨Or.inr rfl, fun N hN => by simp [envNext] at hN⟩
      | some r =>
        simp only [envNext]
        by_cases hok : (pyStartsWith "UPLOAD_READY" r ||
            pyStartsWith "UPLOAD_RESUME" r) = true
        · rw [if_pos hok]
          cases hop : offsetParse r with
          | none =>
            dsimp only
            exact ⟨Or.inr rfl, fun N hN => by simp at hN⟩
          | some n =>
            dsimp only
            by_cases hn : n < 0
            · rw [if_pos hn]
              exact ⟨Or.inr rfl, fun N hN => by simp at hN⟩
            · rw [if_neg hn]
              refine ⟨Or.inr rfl, fun N hN => ?_⟩
              have hNn : N = n.toNat := by
                simpa using hN.symm
              subst hNn
              cases hdrop : content.drop n.toNat with
              | nil =>
                have hch : chunks512 (content.drop n.toNat) = [] := by
                  rw [hdrop]; rfl
                have hsc := sendChunks_nil n (es : Env)
                refine ⟨rfl, ?_, fun _ => ⟨?_, ?_⟩⟩
                · simp [hch, chunks512_nil, hsc.1, hdrop]
                · simp [hch, chunks512_nil, hsc.1]
                · simpa [hch, chunks512_nil] using hsc.2
              | cons b bs =>
                have hch : chunks512 (content.drop n.toNat) =
                    (b :: bs).take 512 :: chunks512 ((b :: bs).drop 512) := by
                  rw [hdrop, chunks512_cons]
                refine ⟨rfl, ?_, fun hcontra => absurd hcontra (by simp)⟩
                simp [hdrop, chunks512_cons, sendChunks_cons_head]
        · rw [if_neg hok]
          exact ⟨Or.inr rfl, fun N hN => by simp at hN⟩

theorem uploadLoop_length (name : String) (content : List Nat) :
    ∀ (fuel : Nat) (off : Int) (env : Env),
    (uploadLoop name content fuel off env).1.length ≤ fuel := by
  intro fuel
  induction fuel with
  | zero => intro off env; simp [uploadLoop]
  | succ f ih =>
    intro off env
    cases hres : (uploadAttempt name content off env).1.res with
    | excRetry =>
      simp only [uploadLoop, hres, List.length_cons]
      have := ih (uploadAttempt name content off env).2.1
        (uploadAttempt name content off env).2.2
      omega
    | success =>
      simp only [uploadLoop, hres, List.length_singleton]
      omega
    | aborted =>
      simp only [uploadLoop, hres, List.length_singleton]
      omega

theorem uploadLoop_mem (name : String) (content : List Nat) :
    ∀ (fuel : Nat) (off : Int) (env : Env) (a : AttemptLog),
    a ∈ (uploadLoop name content fuel off env).1 →
    ∃ off2 env2, a = (uploadAttempt name content off2 env2).1 := by
  intro fuel
  induction fuel with
  | zero => intro off env a ha; simp [uploadLoop] at ha
  | succ f ih =>
    intro off env a ha
    cases hres : (uploadAttempt name content off env).1.res with
    | excRetry =>
      simp only [uploadLoop, hres] at ha
      rcases List.mem_cons.mp ha with h | h
      · exact ⟨off, env, h⟩
      · exact ih _ _ a h
    | success =>
      simp only [uploadLoop, hres] at ha
      rcases List.mem_singleton.mp ha with h
      exact ⟨off, env, h⟩
    | aborted =>
      simp only [uploadLoop, hres] at ha
      rcases List.mem_singleton.mp ha with h
      exact ⟨off, env, h⟩

theorem uploadLoop_exhausted (name : String) (content : List Nat) :
    ∀ (fuel : Nat) (off : Int) (env : Env),
    (uploadLoop name content fuel off env).1.length = fuel →
    (∀ a ∈ (uploadLoop name content fuel off env).1, a.res = .excRetry) →
    (uploadLoop name content fuel off env).2 = .exhausted := by
  intro fuel
  induction fuel with
  | zero => intro off env _ _; rfl
  | succ f ih =>
    intro off env hlen hall
    cases hres : (uploadAttempt name content off env).1.res with
    | excRetry =>
      simp only [uploadLoop, hres] at hlen hall ⊢
      refine ih _ _ (by simpa using hlen) ?_
      intro a ha
      exact hall a (List.mem_cons_of_mem _ ha)
    | success =>
      exfalso
      have hm : (uploadAttempt name content off env).1.res = .excRetry := by
        apply hall
        simp only [uploadLoop, hres]
        exact List.mem_singleton_self _
      rw [hres] at hm
      exact absurd hm (by decide)
    | aborted =>
      exfalso
      have hm : (uploadAttempt name content off env).1.res = .excRetry := by
        apply hall
        simp only [uploadLoop, hres]
        exact List.mem_singleton_self _
      rw [hres] at hm
      exact absurd hm (by decide)

/-- `C6`: `upload_file` makes at most 5 attempts of the whole
multi-chunk exchange; every attempt that sends anything sends
`UPLOAD name` first, and once the server has reported an offset `N`
the next command is determined by `N` alone (the chunk of the local
file read from `N`, or `UPLOAD_END` when nothing remains — in which
case the attempt succeeds unless that very exchange raises); when all
five attempts have failed, the call returns the failure outcome to
its caller instead of raising. -/
theorem C6_upload_retry_budget (name : String) (content : List Nat)
    (env : Env) :
    (upload_file name content env).1.length ≤ 5 ∧
    (∀ a ∈ (upload_file name content env).1,
      (a.cmds = [] ∨ a.cmds.head? = some ("UPLOAD " ++ name)) ∧
      (∀ N, a.serverOff = some N →
        a.cmds.head? = some ("UPLOAD " ++ name) ∧
        a.cmds.tail.head? = some (if content.drop N = [] then "UPLOAD_END"
          else "UPLOAD_DATA " ++ bytesToHex ((content.drop N).take 512)) ∧
        (content.drop N = [] →
          a.cmds = ["UPLOAD " ++ name, "UPLOAD_END"] ∧
          (a.res = .success ∨ a.res = .excRetry)))) ∧
    ((upload_file name content env).1.length = 5 →
      (∀ a ∈ (upload_file name content env).1, a.res = .excRetry) →
      (upload_file name content env).2 = .exhausted) := by
  refine ⟨uploadLoop_length name content 5 0 env, ?_,
    uploadLoop_exhausted name content 5 0 env⟩
  intro a ha
  obtain ⟨off2, env2, rfl⟩ := uploadLoop_mem name content 5 0 env a ha
  exact uploadAttempt_props name content off2 env2

end FTAM
